import Mathlib

/-!
Shallow embedding of the Autorus supplier resolution / offer-extraction
engine (`src/app/autorus_pw_session.py`), together with proofs about it.

Conventions of the embedding:
* Python strings are Lean `String`s (lists of unicode characters).
* BeautifulSoup queries are modelled by structures whose fields hold the
  result of each CSS query the code performs: a field of type `String`
  holds the `_text(...)` of the selected element (`""` when the element is
  absent, exactly as `_text` returns `""` for `None`); a field of type
  `Option _` distinguishes element presence where the code tests the
  element object itself for truthiness.
* Navigation (`page.goto`) is modelled by an `Upstream` environment
  mapping each visited URL to the page served there; every navigation is
  recorded in a `Nav` log so that theorems can speak about how many
  navigations a call performs.
* Python exceptions are modelled with `Except`: raising is returning
  `.error`, and the `try/except` in `_resolve_parts_ref_by_pcode` is the
  explicit case split on the attempt outcome.
* Python `float` results are modelled as `ℚ`.
-/

namespace Autorus

/-- Python's `a or b` on strings: `a` when non-empty (truthy), else `b`. -/
def pyOr (a b : String) : String := if a = "" then b else a

/-- Python's `str.strip()`: drop whitespace from both ends. -/
def pyStrip (s : String) : String :=
  ⟨((s.data.dropWhile Char.isWhitespace).reverse.dropWhile Char.isWhitespace).reverse⟩

/-- Whether the first list is an initial segment of the second. -/
def startsWithChars : List Char → List Char → Bool
  | [], _ => true
  | _ :: _, [] => false
  | a :: as, b :: bs => a = b && startsWithChars as bs

/-- Whether `s` starts with `p`. -/
def strStarts (s p : String) : Bool := startsWithChars p.data s.data

/-- Value of a list of decimal digit characters, most significant first. -/
def digitsVal (l : List Char) : ℕ :=
  l.foldl (fun a c => 10 * a + (c.toNat - 48)) 0

/-- `AutorusPwSession._parse_int`: keep only digits, parse as base 10,
`0` when no digit remains. -/
def parse_int (s : String) : ℕ :=
  let digits := s.data.filter Char.isDigit
  if digits = [] then 0 else digitsVal digits

/-- Model of Python `float(str)` restricted to strings made of decimal
digits and dots — the only strings `_parse_price` can pass to it after
cleaning.  Accepts `digits`, `digits.`, `.digits`, `digits.digits`;
rejects the empty string, a lone dot, and anything with two dots
(`float` raises `ValueError` there, modelled as `none`). -/
def pyFloatOfCleaned (l : List Char) : Option ℚ :=
  let intp := l.takeWhile Char.isDigit
  match l.dropWhile Char.isDigit with
  | [] => if intp = [] then none else some (digitsVal intp)
  | '.' :: frac =>
    if frac.all Char.isDigit ∧ (intp ≠ [] ∨ frac ≠ []) then
      some ((digitsVal intp : ℚ) + (digitsVal frac : ℚ) / (10 ^ frac.length : ℚ))
    else none
  | _ => none

/-- Characters kept by `_parse_price` before parsing. -/
def priceKeep (c : Char) : Bool := c.isDigit || c = ',' || c = '.'

/-- `AutorusPwSession._parse_price`: keep digits, `,`, `.`; replace `,`
with `.`; `float(...)` the result, with `0.0` for the empty string and
for anything `float` rejects (the `except` clause). -/
def parse_price (s : String) : ℚ :=
  let cleaned := (s.data.filter priceKeep).map (fun c => if c = ',' then '.' else c)
  if cleaned = [] then 0
  else
    match pyFloatOfCleaned cleaned with
    | some q => q
    | none => 0

/-- `AutorusPwSession._normalize_pcode`: uppercase, then keep only
alphanumeric characters. -/
def normalize_pcode (value : String) : String :=
  ⟨(value.data.map Char.toUpper).filter Char.isAlphanum⟩

/-- `AutorusPwSession._variants_for_search`: the trimmed code, then —
only when non-empty and different — the code with every non-alphanumeric
character removed; empties are filtered out at the end. -/
def variants_for_search (pcode : String) : List String :=
  let base := pyStrip pcode
  let compact : String := ⟨base.data.filter Char.isAlphanum⟩
  let out := if compact ≠ "" ∧ compact ≠ base then [base, compact] else [base]
  out.filter (fun x => x ≠ "")

/-- UTF-8 encoding of a character as a list of byte values. -/
def utf8Bytes (c : Char) : List ℕ :=
  let n := c.toNat
  if n < 0x80 then [n]
  else if n < 0x800 then [0xC0 + n / 64, 0x80 + n % 64]
  else if n < 0x10000 then [0xE0 + n / 4096, 0x80 + (n / 64) % 64, 0x80 + n % 64]
  else [0xF0 + n / 262144, 0x80 + (n / 4096) % 64, 0x80 + (n / 64) % 64, 0x80 + n % 64]

/-- Upper-case hexadecimal digit for a value below 16. -/
def hexDigit (n : ℕ) : Char :=
  if n < 10 then Char.ofNat (48 + n) else Char.ofNat (55 + n)

/-- `%XX` escape of one byte, as urllib produces it. -/
def percentEncodeByte (b : ℕ) : List Char :=
  ['%', hexDigit (b / 16), hexDigit (b % 16)]

/-- Model of `urllib.parse.quote`: alphanumerics and `_.-~` are always
kept, characters in `safe` are kept, everything else is percent-encoded
byte by byte from its UTF-8 encoding. -/
def pyQuote (safe : List Char) (s : String) : String :=
  ⟨(s.data.map fun c =>
      if c.isAlphanum || c ∈ ['_', '.', '-', '~'] || c ∈ safe then [c]
      else (utf8Bytes c).map percentEncodeByte |>.flatten).flatten⟩

/-- `AutorusPwSession.BASE`. -/
def BASE : String := "https://b2b.autorus.ru"

/-- `AutorusPwSession._build_parts_url`: the canonical detail URL, built
from brand and number with `quote(..., safe='')`. -/
def build_parts_url (brand number : String) : String :=
  BASE ++ "/parts/" ++ pyQuote [] brand ++ "/" ++ pyQuote [] number

/-- Scheme-plus-host part of an absolute http(s) URL. -/
def urlOrigin (base : String) : String :=
  if strStarts base "https://" then
    "https://" ++ ⟨(base.data.drop 8).takeWhile (· ≠ '/')⟩
  else if strStarts base "http://" then
    "http://" ++ ⟨(base.data.drop 7).takeWhile (· ≠ '/')⟩
  else ""

/-- The base URL up to and including its last `/`. -/
def urlDirname (base : String) : String :=
  ⟨(base.data.reverse.dropWhile (· ≠ '/')).reverse⟩

/-- Model of `urllib.parse.urljoin` for the shapes arising here: an
absolute link is returned as is, a root-relative link is resolved against
the base's origin, and any other link replaces the base's last path
segment. -/
def urljoin (base link : String) : String :=
  if strStarts link "http://" || strStarts link "https://" then link
  else if strStarts link "/" then urlOrigin base ++ link
  else urlDirname base ++ link

/-! ### The parsed-document model

Each structure field holds the outcome of one BeautifulSoup query the
source performs on the page's HTML. -/

/-- The `span.goodsInfoTitle` element: texts of its inner
`span.article-brand` / `span.article-number` (`""` when absent). -/
structure TitleEl where
  brandText : String
  numberText : String
deriving DecidableEq

/-- The `img.searchResultImg` of a result row: its `data-brand` /
`data-number` attribute values, with `""` standing for a missing
attribute (the code only ever tests them for truthiness and then
`str(... or "")`, under which `None` and `""` are interchangeable). -/
structure ImgEl where
  dataBrand : String
  dataNumber : String
deriving DecidableEq

/-- One `tr[class*='resultTr']` row of the results table. -/
structure ResultRow where
  /-- Text of `.resultPartCode a`; `none` when the element is absent
  (the code treats absence differently from a mismatching text). -/
  pcodeText : Option String
  /-- The row's `img.searchResultImg`, when present. -/
  img : Option ImgEl
deriving DecidableEq

/-- The queries `_extract_search_resolution` performs on a search page. -/
structure SearchDoc where
  /-- `span.goodsInfoTitle`, when present. -/
  goodsInfoTitle : Option TitleEl
  /-- Text of the document-level `.article-brand` (`""` when absent). -/
  articleBrand : String
  /-- Text of the document-level `.article-number` (`""` when absent). -/
  articleNumber : String
  /-- All `tr[class*='resultTr']` rows, in document order. -/
  resultRows : List ResultRow
  /-- `data-link` of the first `table.globalCase tbody tr.startSearching`
  row; `none` when there is no such row, `""` when the attribute is
  missing or empty (falsy either way). -/
  startSearchingLink : Option String
deriving DecidableEq

/-- Result of `_extract_search_resolution`: either a fully resolved
brand/number/parts-URL triple, or the detail link to follow. -/
inductive SearchResolution where
  | partsRef (brand number parts_url : String)
  | searchDetail (url : String)
deriving DecidableEq

/-- The `span.goodsInfoTitle` branch of `_extract_search_resolution`:
brand and number from the title's inner spans, falling back (`or`) to
the document-level elements; a hit only when both are non-empty. -/
def resolution_from_title (doc : SearchDoc) : Option (String × String) :=
  match doc.goodsInfoTitle with
  | none => none
  | some t =>
    let brand := pyOr t.brandText doc.articleBrand
    let number := pyOr t.numberText doc.articleNumber
    if brand ≠ "" ∧ number ≠ "" then some (brand, number) else none

/-- The row loop of `_extract_search_resolution`: skip a row whose
`.resultPartCode a` text is present but does not normalize to the wanted
code; on any other row take the image's `data-brand`/`data-number` when
both are truthy and still non-empty after stripping. -/
def row_scan (wanted : String) : List ResultRow → Option (String × String)
  | [] => none
  | tr :: rest =>
    if tr.pcodeText.isSome ∧ normalize_pcode (tr.pcodeText.getD "") ≠ wanted then
      row_scan wanted rest
    else
      match tr.img with
      | none => row_scan wanted rest
      | some img =>
        if img.dataBrand ≠ "" ∧ img.dataNumber ≠ "" then
          let brand := pyStrip img.dataBrand
          let number := pyStrip img.dataNumber
          if brand ≠ "" ∧ number ≠ "" then some (brand, number) else row_scan wanted rest
        else row_scan wanted rest

/-- The `tr.startSearching` branch of `_extract_search_resolution`: the
first selectable row's `data-link`, resolved against the current URL. -/
def resolution_from_list (doc : SearchDoc) (currentUrl : String) : Option SearchResolution :=
  match doc.startSearchingLink with
  | none => none
  | some link => if link ≠ "" then some (.searchDetail (urljoin currentUrl link)) else none

/-- `AutorusPwSession._extract_search_resolution`, in its source order:
product-title hit, then matching table row, then first selectable list
row, then `None`. -/
def extract_search_resolution (pcode : String) (doc : SearchDoc) (currentUrl : String) :
    Option SearchResolution :=
  match resolution_from_title doc with
  | some (b, n) => some (.partsRef b n (build_parts_url b n))
  | none =>
    match row_scan (normalize_pcode pcode) doc.resultRows with
    | some (b, n) => some (.partsRef b n (build_parts_url b n))
    | none => resolution_from_list doc currentUrl

/-! ### The navigation model -/

/-- `AutorusPartRef` (`autorus_pw_session.py`). -/
structure AutorusPartRef where
  brand : String
  number : String
  parts_url : String
deriving DecidableEq

/-- `AutorusOffer` (`autorus_pw_session.py`), with the price as `ℚ`. -/
structure AutorusOffer where
  warehouse : String
  qty : ℕ
  price_rub : ℚ
  deadline : String
deriving DecidableEq

/-- `SupplierProductSnapshot` (`autorus_pw_session.py`). -/
structure SupplierProductSnapshot where
  pcode : String
  brand : Option String
  number : Option String
  parts_url : Option String
  offer : Option AutorusOffer
deriving DecidableEq

/-- A search page as served by the upstream site: the guest-mode flag
(body text contains the access-denied phrase), `page.url` after the
navigation, and the parsed document. -/
structure SearchPage where
  guest : Bool
  pageUrl : String
  doc : SearchDoc
deriving DecidableEq

/-- A search-detail page: guest flag plus the queries the detail branch
of `_resolve_parts_ref_by_pcode` performs. -/
structure DetailPage where
  guest : Bool
  goodsInfoTitle : Option TitleEl
  articleBrand : String
  articleNumber : String
deriving DecidableEq

/-- One `.distrInfoBlockWrapper` availability block: the texts of the
four sub-elements `_fetch_first_offer_from_parts` reads (`""` when the
sub-element is absent). -/
structure OfferBlock where
  routeText : String
  availText : String
  priceText : String
  deadlineText : String
deriving DecidableEq

/-- A `/parts` page: guest flag, whether the bounded wait for
`.distrInfoBlockWrapper, .article-brand, .article-number` times out, the
brand/number texts, and all availability blocks in document order. -/
structure PartsPage where
  guest : Bool
  timedOut : Bool
  articleBrand : String
  articleNumber : String
  blocks : List OfferBlock
deriving DecidableEq

/-- The upstream site: what each navigated URL serves.  Navigation
itself always yields a page (timeouts inside a page load are not
modelled; the bounded-wait timeout on `/parts` is the `timedOut` flag). -/
structure Upstream where
  searchPage : String → SearchPage
  detailPage : String → DetailPage
  partsPage : String → PartsPage

/-- One performed navigation (`page.goto`), tagged by pipeline stage. -/
inductive Nav where
  | search (url : String)
  | detail (url : String)
  | parts (url : String)
deriving DecidableEq

/-- Whether a navigation is a search attempt. -/
def Nav.isSearch : Nav → Bool
  | .search _ => true
  | _ => false

/-- The errors the session can raise (each a `RuntimeError` in the
source): the guest-mode failure from `_ensure_not_guest_or_raise`
(tagged with its stage), the `/parts` wait timeout, and the final
resolution failure, optionally wrapping the last error caught inside
the variant loop. -/
inductive SessionError where
  | accessDenied (stage : String)
  | pageTimeout
  | resolutionFailed (pcode : String) (last : Option SessionError)

/-- The search URL `_resolve_parts_ref_by_pcode` builds for one variant
(`quote` with its default `safe='/'`). -/
def search_url_for (one : String) : String :=
  BASE ++ "/search?pcode=" ++ pyQuote ['/'] one ++ "&whCode="

/-- Brand read from a detail page: the title's inner span when the title
exists, else the document-level element (the `if title else` ternary). -/
def detail_brand (dp : DetailPage) : String :=
  match dp.goodsInfoTitle with
  | some t => t.brandText
  | none => dp.articleBrand

/-- Number read from a detail page, same shape as `detail_brand`. -/
def detail_number (dp : DetailPage) : String :=
  match dp.goodsInfoTitle with
  | some t => t.numberText
  | none => dp.articleNumber

/-- Outcome of the `try` body for one variant: an early `return`, a
normal fall-through to the next variant, or a raised error (which the
`except` clause records and the loop then continues past). -/
inductive AttemptResult where
  | success (r : AutorusPartRef)
  | noResolve
  | errored (e : SessionError)

/-- The body of the variant loop in `_resolve_parts_ref_by_pcode`:
navigate to the search URL, fail on guest mode, classify; on a direct
hit return the reference; on a list hit follow the detail link, fail on
guest mode, and return the reference when the detail page shows a
non-empty brand and number; otherwise fall through.  Also returns the
navigations performed. -/
def attempt_variant (env : Upstream) (one : String) : AttemptResult × List Nav :=
  let url := search_url_for one
  let sp := env.searchPage url
  if sp.guest then (.errored (.accessDenied "search"), [.search url])
  else
    match extract_search_resolution one sp.doc sp.pageUrl with
    | none => (.noResolve, [.search url])
    | some (.partsRef b n pu) => (.success ⟨b, n, pu⟩, [.search url])
    | some (.searchDetail durl) =>
      let dp := env.detailPage durl
      if dp.guest then (.errored (.accessDenied "search_detail"), [.search url, .detail durl])
      else
        let brand := detail_brand dp
        let number := detail_number dp
        if brand ≠ "" ∧ number ≠ "" then
          (.success ⟨brand, number, build_parts_url brand number⟩,
            [.search url, .detail durl])
        else (.noResolve, [.search url, .detail durl])

/-- The `for one in self._variants_for_search(pcode)` loop with its
`last_error` accumulator: a success returns immediately; an error is
caught, recorded and the next variant tried; when the variants are
exhausted the call fails with `resolutionFailed` wrapping the recorded
last error, if any. -/
def resolve_loop (env : Upstream) (pcode : String) (lastError : Option SessionError) :
    List String → Except SessionError AutorusPartRef × List Nav
  | [] => (.error (.resolutionFailed pcode lastError), [])
  | v :: rest =>
    match attempt_variant env v with
    | (.success r, navs) => (.ok r, navs)
    | (.noResolve, navs) =>
      let res := resolve_loop env pcode lastError rest
      (res.1, navs ++ res.2)
    | (.errored e, navs) =>
      let res := resolve_loop env pcode (some e) rest
      (res.1, navs ++ res.2)

/-- `AutorusPwSession._resolve_parts_ref_by_pcode`, with its navigation
log. -/
def resolve_parts_ref_by_pcode (env : Upstream) (pcode : String) :
    Except SessionError AutorusPartRef × List Nav :=
  resolve_loop env pcode none (variants_for_search pcode)

/-- `_text(...) or None`: `none` for the empty text. -/
def optText (s : String) : Option String := if s = "" then none else some s

/-- The `AutorusOffer` built from one availability block. -/
def offer_of_block (b : OfferBlock) : AutorusOffer :=
  { warehouse := b.routeText
    qty := parse_int b.availText
    price_rub := parse_price b.priceText
    deadline := b.deadlineText }

/-- `AutorusPwSession._fetch_first_offer_from_parts`: navigate to the
parts URL, fail on guest mode, fail on the bounded-wait timeout; read
brand and number (`or None`); when no availability block exists return
them with no offer (not an error); otherwise build the offer from the
first block in document order. -/
def fetch_first_offer_from_parts (env : Upstream) (parts_url : String) :
    Except SessionError (Option String × Option String × Option AutorusOffer) × List Nav :=
  let pg := env.partsPage parts_url
  if pg.guest then (.error (.accessDenied "parts"), [.parts parts_url])
  else if pg.timedOut then (.error .pageTimeout, [.parts parts_url])
  else
    let brand := optText pg.articleBrand
    let number := optText pg.articleNumber
    match pg.blocks with
    | [] => (.ok (brand, number, none), [.parts parts_url])
    | b :: _ => (.ok (brand, number, some (offer_of_block b)), [.parts parts_url])

/-- Python's `resolved.field or detail_field` in `fetch_product_snapshot`:
the resolution value when non-empty, else the detail-page value. -/
def pyOrOpt (a : String) (b : Option String) : Option String :=
  if a = "" then b else some a

/-- `AutorusPwSession.fetch_product_snapshot`: with a caller-supplied
parts URL (after `strip`, when non-empty) skip resolution entirely;
otherwise resolve the part reference first, then fetch the first offer
from the resolved parts URL, preferring the resolution's brand/number
over the detail page's (`resolved.brand or brand`). -/
def fetch_product_snapshot (env : Upstream) (pcode : String) (parts_url : Option String) :
    Except SessionError SupplierProductSnapshot × List Nav :=
  let existing := pyStrip (parts_url.getD "")
  if existing ≠ "" then
    match fetch_first_offer_from_parts env existing with
    | (.error e, navs) => (.error e, navs)
    | (.ok (b, n, off), navs) =>
      (.ok { pcode := pcode, brand := b, number := n,
             parts_url := some existing, offer := off }, navs)
  else
    match resolve_parts_ref_by_pcode env pcode with
    | (.error e, navs) => (.error e, navs)
    | (.ok r, navs) =>
      match fetch_first_offer_from_parts env r.parts_url with
      | (.error e, navs2) => (.error e, navs ++ navs2)
      | (.ok (b, n, off), navs2) =>
        (.ok { pcode := pcode, brand := pyOrOpt r.brand b, number := pyOrOpt r.number n,
               parts_url := some r.parts_url, offer := off }, navs ++ navs2)

/-! ### Concrete pages and environments used in counterexamples and
concrete instantiations -/

/-- A search page with no title, no rows and no list link. -/
def emptySearchDoc : SearchDoc := ⟨none, "", "", [], none⟩

/-- Environment whose first-variant search page is in guest mode while
the second variant's page is a clean product-title hit. -/
def envGuestThenHit : Upstream where
  searchPage url :=
    if url = search_url_for "A-B" then ⟨true, url, emptySearchDoc⟩
    else ⟨false, url, ⟨some ⟨"B", "N"⟩, "", "", [], none⟩⟩
  detailPage _ := ⟨false, none, "", ""⟩
  partsPage _ := ⟨false, false, "", "", []⟩

/-- Environment where every search page is in guest mode. -/
def envAllGuest : Upstream where
  searchPage url := ⟨true, url, emptySearchDoc⟩
  detailPage _ := ⟨true, none, "", ""⟩
  partsPage _ := ⟨true, false, "", "", []⟩

/-- Environment where searching resolves to brand `X` / number `1` but
the detail page displays brand `Y` / number `2`. -/
def envDisagree : Upstream where
  searchPage url := ⟨false, url, ⟨some ⟨"X", "1"⟩, "", "", [], none⟩⟩
  detailPage _ := ⟨false, none, "", ""⟩
  partsPage _ := ⟨false, false, "Y", "2", []⟩

/-- A results-table document whose single row has no displayed part
code at all but does carry brand/number image data attributes. -/
def docRowNoPcode : SearchDoc :=
  ⟨none, "", "", [⟨none, some ⟨"B", "N"⟩⟩], none⟩

/-- Environment producing a direct product-title hit for `3RG 31311`. -/
def envDirect : Upstream where
  searchPage url := ⟨false, url, ⟨some ⟨"3RG", "31311"⟩, "", "", [], none⟩⟩
  detailPage _ := ⟨false, none, "", ""⟩
  partsPage _ := ⟨false, false, "3RG", "31311", []⟩

/-- Environment producing a list hit whose first row links to
`/search/3RG/31311`, with the detail page exposing brand and number. -/
def envListHit : Upstream where
  searchPage url := ⟨false, url, ⟨none, "", "", [], some "/search/3RG/31311"⟩⟩
  detailPage _ := ⟨false, some ⟨"3RG", "31311"⟩, "", ""⟩
  partsPage _ := ⟨false, false, "3RG", "31311", []⟩

/-- Environment whose parts pages have no availability block. -/
def envPartsEmpty : Upstream where
  searchPage url := ⟨false, url, emptySearchDoc⟩
  detailPage _ := ⟨false, none, "", ""⟩
  partsPage _ := ⟨false, false, "3RG", "31311", []⟩

/-- Environment whose parts pages have two availability blocks, the
first more expensive and scarcer than the second. -/
def envPartsTwo : Upstream where
  searchPage url := ⟨false, url, emptySearchDoc⟩
  detailPage _ := ⟨false, none, "", ""⟩
  partsPage _ :=
    ⟨false, false, "3RG", "31311",
      [⟨"WH1", "2 шт", "200", "завтра"⟩, ⟨"WH2", "5 шт", "100", "позже"⟩]⟩

/-! ### Character-level helper lemmas -/

theorem char_toNat_ofNat (m : ℕ) (h1 : 65 ≤ m) (h2 : m ≤ 90) : (Char.ofNat m).toNat = m := by
  have hv : Nat.isValidChar m := Or.inl (by omega)
  unfold Char.ofNat
  rw [dif_pos hv]
  simp [Char.ofNatAux, Char.toNat, UInt32.toNat, UInt32.ofNatTruncate]

theorem char_isUpper_iff (c : Char) : c.isUpper = true ↔ 65 ≤ c.toNat ∧ c.toNat ≤ 90 := by
  simp [Char.isUpper]
  exact ⟨fun ⟨a, b⟩ => ⟨a, b⟩, fun ⟨a, b⟩ => ⟨a, b⟩⟩

theorem char_isLower_iff (c : Char) : c.isLower = true ↔ 97 ≤ c.toNat ∧ c.toNat ≤ 122 := by
  simp [Char.isLower]
  exact ⟨fun ⟨a, b⟩ => ⟨a, b⟩, fun ⟨a, b⟩ => ⟨a, b⟩⟩

theorem char_isDigit_iff (c : Char) : c.isDigit = true ↔ 48 ≤ c.toNat ∧ c.toNat ≤ 57 := by
  simp [Char.isDigit]
  exact ⟨fun ⟨a, b⟩ => ⟨a, b⟩, fun ⟨a, b⟩ => ⟨a, b⟩⟩

theorem char_isAlphanum_iff (c : Char) :
    c.isAlphanum = true ↔
      (65 ≤ c.toNat ∧ c.toNat ≤ 90) ∨ (97 ≤ c.toNat ∧ c.toNat ≤ 122) ∨
        (48 ≤ c.toNat ∧ c.toNat ≤ 57) := by
  simp only [Char.isAlphanum, Char.isAlpha, Bool.or_eq_true, char_isUpper_iff,
    char_isLower_iff, char_isDigit_iff, or_assoc]

theorem char_toUpper_eq_of_not_lower (c : Char) (h : ¬ (97 ≤ c.toNat ∧ c.toNat ≤ 122)) :
    c.toUpper = c := by
  unfold Char.toUpper
  rw [if_neg h]

theorem char_toUpper_toNat (c : Char) (h : 97 ≤ c.toNat ∧ c.toNat ≤ 122) :
    c.toUpper.toNat = c.toNat - 32 := by
  unfold Char.toUpper
  rw [if_pos h]
  exact char_toNat_ofNat _ (by omega) (by omega)

theorem char_toUpper_idem (c : Char) : c.toUpper.toUpper = c.toUpper := by
  by_cases h : 97 ≤ c.toNat ∧ c.toNat ≤ 122
  · have h2 := char_toUpper_toNat c h
    apply char_toUpper_eq_of_not_lower
    omega
  · rw [char_toUpper_eq_of_not_lower c h]
    exact char_toUpper_eq_of_not_lower c h

theorem char_isAlphanum_toUpper (c : Char) : c.toUpper.isAlphanum = c.isAlphanum := by
  by_cases h : 97 ≤ c.toNat ∧ c.toNat ≤ 122
  · have h2 := char_toUpper_toNat c h
    have ha : c.toUpper.isAlphanum = true :=
      (char_isAlphanum_iff _).mpr (Or.inl ⟨by omega, by omega⟩)
    have hb : c.isAlphanum = true :=
      (char_isAlphanum_iff _).mpr (Or.inr (Or.inl h))
    rw [ha, hb]
  · rw [char_toUpper_eq_of_not_lower c h]

theorem map_eq_self_of {l : List Char} {f : Char → Char} (h : ∀ c ∈ l, f c = c) :
    l.map f = l := by
  induction l with
  | nil => rfl
  | cons a t ih =>
    simp only [List.map_cons, List.cons.injEq]
    exact ⟨h a (.head t), ih fun c hc => h c (.tail a hc)⟩

/-! ### Structural lemmas about classification and resolution -/

theorem resolution_from_title_nonempty {doc : SearchDoc} {b n : String}
    (h : resolution_from_title doc = some (b, n)) : b ≠ "" ∧ n ≠ "" := by
  unfold resolution_from_title at h
  split at h
  · exact absurd h (by simp)
  · dsimp only at h
    split at h
    · next hc =>
      have := Option.some.inj h
      have hb : pyOr _ _ = b := congrArg Prod.fst this
      have hn : pyOr _ _ = n := congrArg Prod.snd this
      exact ⟨hb ▸ hc.1, hn ▸ hc.2⟩
    · exact absurd h (by simp)

theorem row_scan_sound {wanted : String} {rows : List ResultRow} {b n : String}
    (h : row_scan wanted rows = some (b, n)) :
    ∃ tr ∈ rows,
      (tr.pcodeText = none ∨ normalize_pcode (tr.pcodeText.getD "") = wanted) ∧
      ∃ img, tr.img = some img ∧ img.dataBrand ≠ "" ∧ img.dataNumber ≠ "" ∧
        b = pyStrip img.dataBrand ∧ n = pyStrip img.dataNumber ∧ b ≠ "" ∧ n ≠ "" := by
  induction rows with
  | nil => exact absurd h (by simp [row_scan])
  | cons tr rest ih =>
    rw [row_scan] at h
    split at h
    · obtain ⟨tr2, htr2, hrest⟩ := ih h
      exact ⟨tr2, .tail _ htr2, hrest⟩
    · next h1 =>
      have hcond : tr.pcodeText = none ∨ normalize_pcode (tr.pcodeText.getD "") = wanted := by
        push_neg at h1
        by_cases hs : tr.pcodeText.isSome
        · exact Or.inr (h1 hs)
        · exact Or.inl (Option.not_isSome_iff_eq_none.mp hs)
      split at h
      · obtain ⟨tr2, htr2, hrest⟩ := ih h
        exact ⟨tr2, .tail _ htr2, hrest⟩
      · next img him =>
        dsimp only at h
        split at h
        · next h2 =>
          split at h
          · next h3 =>
            have heq := Option.some.inj h
            have hb : pyStrip img.dataBrand = b := congrArg Prod.fst heq
            have hn : pyStrip img.dataNumber = n := congrArg Prod.snd heq
            exact ⟨tr, .head _, hcond, img, him, h2.1, h2.2, hb.symm, hn.symm,
              hb ▸ h3.1, hn ▸ h3.2⟩
          · obtain ⟨tr2, htr2, hrest⟩ := ih h
            exact ⟨tr2, .tail _ htr2, hrest⟩
        · obtain ⟨tr2, htr2, hrest⟩ := ih h
          exact ⟨tr2, .tail _ htr2, hrest⟩

theorem resolution_from_list_not_partsRef {doc : SearchDoc} {u b n pu : String} :
    resolution_from_list doc u ≠ some (.partsRef b n pu) := by
  unfold resolution_from_list
  cases doc.startSearchingLink with
  | none => simp
  | some link =>
    by_cases hl : link ≠ "" <;> simp [hl]

theorem extract_partsRef_sound {p u b n pu : String} {doc : SearchDoc}
    (h : extract_search_resolution p doc u = some (.partsRef b n pu)) :
    b ≠ "" ∧ n ≠ "" ∧ pu = build_parts_url b n := by
  unfold extract_search_resolution at h
  split at h
  · next b2 n2 ht =>
    have heq := Option.some.inj h
    injection heq with h1 h2 h3
    subst h1; subst h2
    have := resolution_from_title_nonempty ht
    exact ⟨this.1, this.2, h3.symm⟩
  · split at h
    · next b2 n2 hr =>
      have heq := Option.some.inj h
      injection heq with h1 h2 h3
      subst h1; subst h2
      obtain ⟨tr, _, _, img, _, _, _, hb, hn, hb2, hn2⟩ := row_scan_sound hr
      exact ⟨hb2, hn2, h3.symm⟩
    · exact absurd h resolution_from_list_not_partsRef

theorem attempt_variant_success_sound {env : Upstream} {v : String} {r : AutorusPartRef}
    {navs : List Nav} (h : attempt_variant env v = (.success r, navs)) :
    r.brand ≠ "" ∧ r.number ≠ "" ∧ r.parts_url = build_parts_url r.brand r.number := by
  simp only [attempt_variant] at h
  split at h
  · exact absurd h (by simp)
  · split at h
    · exact absurd h (by simp)
    · next b n pu hx =>
      rw [Prod.mk.injEq] at h
      have hr := AttemptResult.success.inj h.1
      have := extract_partsRef_sound hx
      subst hr
      exact this
    · split at h
      · exact absurd h (by simp)
      · split at h
        · next hbn =>
          rw [Prod.mk.injEq] at h
          have hr := AttemptResult.success.inj h.1
          subst hr
          exact ⟨hbn.1, hbn.2, rfl⟩
        · exact absurd h (by simp)

theorem resolve_loop_ok_sound {env : Upstream} {p : String} {le : Option SessionError}
    {vs : List String} {r : AutorusPartRef}
    (h : (resolve_loop env p le vs).1 = .ok r) :
    r.brand ≠ "" ∧ r.number ≠ "" ∧ r.parts_url = build_parts_url r.brand r.number := by
  induction vs generalizing le with
  | nil => exact absurd h (by simp [resolve_loop])
  | cons v rest ih =>
    rw [resolve_loop] at h
    split at h
    · next r2 navs2 hav =>
      have hr : r2 = r := by simpa using h
      subst hr
      exact attempt_variant_success_sound hav
    · exact ih h
    · exact ih h

theorem resolve_ok_sound {env : Upstream} {p : String} {r : AutorusPartRef}
    (h : (resolve_parts_ref_by_pcode env p).1 = .ok r) :
    r.brand ≠ "" ∧ r.number ≠ "" ∧ r.parts_url = build_parts_url r.brand r.number :=
  resolve_loop_ok_sound h

theorem attempt_variant_guest {env : Upstream} {v : String}
    (hg : (env.searchPage (search_url_for v)).guest = true) :
    attempt_variant env v =
      (.errored (.accessDenied "search"), [.search (search_url_for v)]) := by
  simp only [attempt_variant, hg, if_true]

theorem resolve_loop_all_guest (env : Upstream) (p : String) (le : Option SessionError)
    (vs : List String)
    (h : ∀ v ∈ vs, (env.searchPage (search_url_for v)).guest = true) :
    resolve_loop env p le vs =
      (.error (.resolutionFailed p
          (if vs.isEmpty then le else some (.accessDenied "search"))),
        vs.map fun v => .search (search_url_for v)) := by
  induction vs generalizing le with
  | nil => simp [resolve_loop]
  | cons v rest ih =>
    rw [resolve_loop, attempt_variant_guest (h v (.head rest))]
    dsimp only
    rw [ih (some (.accessDenied "search")) fun w hw => h w (.tail _ hw)]
    cases rest <;> simp

theorem attempt_variant_search_count (env : Upstream) (v : String) :
    (attempt_variant env v).2.countP Nav.isSearch = 1 := by
  simp only [attempt_variant]
  split
  · simp [List.countP_cons, Nav.isSearch]
  · split
    · simp [List.countP_cons, Nav.isSearch]
    · simp [List.countP_cons, Nav.isSearch]
    · split
      · simp [List.countP_cons, Nav.isSearch]
      · split <;> simp [List.countP_cons, Nav.isSearch]

theorem resolve_loop_search_count (env : Upstream) (p : String) (le : Option SessionError)
    (vs : List String) :
    (resolve_loop env p le vs).2.countP Nav.isSearch ≤ vs.length := by
  induction vs generalizing le with
  | nil => simp [resolve_loop]
  | cons v rest ih =>
    rw [resolve_loop]
    rcases hav : attempt_variant env v with ⟨ar, anavs⟩
    have hc : anavs.countP Nav.isSearch = 1 := by
      have := attempt_variant_search_count env v
      rw [hav] at this
      exact this
    cases ar with
    | success r =>
      simp only [List.length_cons]
      omega
    | noResolve =>
      simp only [List.countP_append, List.length_cons, hc]
      have := ih le
      omega
    | errored e =>
      simp only [List.countP_append, List.length_cons, hc]
      have := ih (some e)
      omega

theorem variants_for_search_eq (p : String) :
    variants_for_search p =
      if pyStrip p = "" then []
      else
        if (⟨(pyStrip p).data.filter Char.isAlphanum⟩ : String) ≠ "" ∧
            (⟨(pyStrip p).data.filter Char.isAlphanum⟩ : String) ≠ pyStrip p then
          [pyStrip p, ⟨(pyStrip p).data.filter Char.isAlphanum⟩]
        else [pyStrip p] := by
  unfold variants_for_search
  by_cases hb : pyStrip p = ""
  · rw [if_pos hb]
    simp only [hb]
    rfl
  · rw [if_neg hb]
    by_cases hc : (⟨(pyStrip p).data.filter Char.isAlphanum⟩ : String) ≠ "" ∧
        (⟨(pyStrip p).data.filter Char.isAlphanum⟩ : String) ≠ pyStrip p
    · rw [if_pos hc]
      dsimp only
      rw [if_pos hc]
      simp [List.filter_cons, hb, hc.1]
    · rw [if_neg hc]
      dsimp only
      rw [if_neg hc]
      simp [List.filter_cons, hb]

theorem variants_for_search_length (p : String) : (variants_for_search p).length ≤ 2 := by
  rw [variants_for_search_eq]
  split
  · simp
  · split <;> simp

theorem variants_for_search_blank {p : String} (h : pyStrip p = "") :
    variants_for_search p = [] := by
  rw [variants_for_search_eq, if_pos h]

theorem parse_price_no_digits {s : String} (h : ∀ c ∈ s.data, c.isDigit = false) :
    parse_price s = 0 := by
  unfold parse_price
  set cleaned := (s.data.filter priceKeep).map (fun c => if c = ',' then '.' else c) with hcl
  have hdots : ∀ c ∈ cleaned, c = '.' := by
    intro c hc
    rw [hcl] at hc
    obtain ⟨d, hd, rfl⟩ := List.mem_map.mp hc
    have hdmem := List.mem_of_mem_filter hd
    have hdk : priceKeep d = true := List.of_mem_filter hd
    have hdnd : d.isDigit = false := h d hdmem
    simp only [priceKeep, hdnd, Bool.false_or, Bool.or_eq_true, decide_eq_true_eq] at hdk
    rcases hdk with rfl | rfl
    · simp
    · simp
  by_cases hne : cleaned = []
  · rw [if_pos hne]
  · rw [if_neg hne]
    obtain ⟨c, cs, heq⟩ := List.exists_cons_of_ne_nil hne
    rw [heq] at hdots ⊢
    have hc1 : c = '.' := hdots c (.head _)
    subst hc1
    have hnone : pyFloatOfCleaned ('.' :: cs) = none := by
      unfold pyFloatOfCleaned
      have hdig : Char.isDigit '.' = false := by decide
      rw [List.takeWhile_cons, List.dropWhile_cons]
      simp only [hdig, Bool.false_eq_true, if_false]
      cases cs with
      | nil => simp
      | cons c2 cs2 =>
        have hc2 : c2 = '.' := hdots c2 (.tail _ (.head _))
        subst hc2
        simp [List.all_cons, hdig]
    rw [hnone]

theorem fetch_product_snapshot_resolved {env : Upstream} {p : String} {r : AutorusPartRef}
    {navs : List Nav} {b n : Option String} {off : Option AutorusOffer} {navs2 : List Nav}
    (h1 : resolve_parts_ref_by_pcode env p = (.ok r, navs))
    (h2 : fetch_first_offer_from_parts env r.parts_url = (.ok (b, n, off), navs2)) :
    fetch_product_snapshot env p none =
      (.ok ⟨p, some r.brand, some r.number, some r.parts_url, off⟩, navs ++ navs2) := by
  have h1' : (resolve_parts_ref_by_pcode env p).1 = Except.ok r := by rw [h1]
  have hr := resolve_ok_sound h1' 
  unfold fetch_product_snapshot
  dsimp only
  rw [if_neg (by decide : ¬ (pyStrip ((none : Option String).getD "") ≠ ""))]
  rw [h1]
  dsimp only
  rw [h2]
  dsimp only
  unfold pyOrOpt
  rw [if_neg hr.1, if_neg hr.2.1]

/-! ### Claim theorems -/

/-- C1 counterexample: a guest-mode page on the first variant's search
stage does not end `_resolve_parts_ref_by_pcode`: the raised guest-mode
error is swallowed by the per-variant `except`, the second variant is
still attempted (two search navigations in the log), and the call even
succeeds — contradicting "fails immediately with AccessDenied and no
further code variants are attempted". -/
theorem guest_mode_mid_resolution_is_not_terminal :
    (envGuestThenHit.searchPage (search_url_for "A-B")).guest = true ∧
    resolve_parts_ref_by_pcode envGuestThenHit "A-B" =
      (.ok ⟨"B", "N", build_parts_url "B" "N"⟩,
        [.search (search_url_for "A-B"), .search (search_url_for "AB")]) :=
  ⟨rfl, rfl⟩

/-- C1 amended: a guest-mode page at a search stage aborts only that
variant's attempt; every remaining variant is still navigated to, and
when none succeeds the call fails with the resolution-failed error
wrapping the recorded guest-mode error — not with a bare access-denied
failure. -/
theorem resolution_retries_after_guest_mode (env : Upstream) (p : String)
    (hne : variants_for_search p ≠ [])
    (hall : ∀ v ∈ variants_for_search p, (env.searchPage (search_url_for v)).guest = true) :
    resolve_parts_ref_by_pcode env p =
      (.error (.resolutionFailed p (some (.accessDenied "search"))),
        (variants_for_search p).map fun v => .search (search_url_for v)) := by
  unfold resolve_parts_ref_by_pcode
  rw [resolve_loop_all_guest env p none _ hall]
  cases hv : variants_for_search p with
  | nil => exact absurd hv hne
  | cons a rest => simp

/-- C1 witness: with every search page in guest mode and the two-variant
code `A-B`, resolution attempts both variants and fails with
resolution-failed wrapping the guest-mode error. -/
theorem resolution_retries_after_guest_mode_witness :
    resolve_parts_ref_by_pcode envAllGuest "A-B" =
      (.error (.resolutionFailed "A-B" (some (.accessDenied "search"))),
        [.search (search_url_for "A-B"), .search (search_url_for "AB")]) := by
  have h := resolution_retries_after_guest_mode envAllGuest "A-B"
    (by decide) (fun v _ => rfl)
  exact h

/-- C2 counterexample: when the detail page displays brand `Y` / number
`2` but search-page resolution produced `X` / `1`, the snapshot carries
`X` / `1` — the resolution values, not the detail page's — contradicting
"carries the brand and number re-extracted from the detail page". -/
theorem snapshot_keeps_resolution_brand_over_detail :
    fetch_product_snapshot envDisagree "P" none =
      (.ok ⟨"P", some "X", some "1", some (build_parts_url "X" "1"), none⟩,
        [.search (search_url_for "P"), .parts (build_parts_url "X" "1")]) ∧
    (envDisagree.partsPage (build_parts_url "X" "1")).articleBrand = "Y" ∧
    (envDisagree.partsPage (build_parts_url "X" "1")).articleNumber = "2" ∧
    ("X" : String) ≠ "Y" ∧ ("1" : String) ≠ "2" :=
  ⟨rfl, rfl, rfl, by decide, by decide⟩

/-- C2 amended: in the resolution path of `fetch_product_snapshot` the
returned snapshot carries the brand and number obtained during
search-page resolution (they are always non-empty, so the
`resolved.brand or brand` fallback to the detail-page values never
fires); the detail page only supplies the offer. -/
theorem snapshot_brand_number_from_resolution (env : Upstream) (p : String)
    (r : AutorusPartRef) (navs : List Nav) (b n : Option String)
    (off : Option AutorusOffer) (navs2 : List Nav)
    (h1 : resolve_parts_ref_by_pcode env p = (.ok r, navs))
    (h2 : fetch_first_offer_from_parts env r.parts_url = (.ok (b, n, off), navs2)) :
    fetch_product_snapshot env p none =
      (.ok ⟨p, some r.brand, some r.number, some r.parts_url, off⟩, navs ++ navs2) :=
  fetch_product_snapshot_resolved h1 h2

/-- C2 witness: the amended statement applied to the environment whose
detail page disagrees with the search page. -/
theorem snapshot_brand_number_from_resolution_witness :
    fetch_product_snapshot envDisagree "P" none =
      (.ok ⟨"P", some "X", some "1", some (build_parts_url "X" "1"), none⟩,
        [.search (search_url_for "P")] ++ [.parts (build_parts_url "X" "1")]) :=
  snapshot_brand_number_from_resolution envDisagree "P"
    ⟨"X", "1", build_parts_url "X" "1"⟩ [.search (search_url_for "P")]
    (some "Y") (some "2") none [.parts (build_parts_url "X" "1")] rfl rfl

/-- C3 counterexample: a results-table row with no displayed part code
element at all still produces a row-stage DirectHit when its image
carries brand/number data attributes — contradicting "only for a row
whose displayed code, after normalizeCode, equals
normalizeCode(requestedCode)". -/
theorem direct_hit_from_row_without_code :
    extract_search_resolution "XYZ" docRowNoPcode "u" =
      some (.partsRef "B" "N" (build_parts_url "B" "N")) ∧
    ∀ tr ∈ docRowNoPcode.resultRows, tr.pcodeText = none :=
  ⟨rfl, by decide⟩

/-- C3 amended: `_extract_search_resolution` tries the product-title
hit, then the table-row hit, then the first selectable list row, in
that order; a row-stage hit comes from a row whose displayed code is
either absent or normalizes to the normalized requested code, and whose
image carries truthy brand/number data attributes that remain non-empty
after stripping. -/
theorem classification_order_and_row_condition :
    (∀ (doc : SearchDoc) (p u b n : String),
      resolution_from_title doc = some (b, n) →
        extract_search_resolution p doc u = some (.partsRef b n (build_parts_url b n))) ∧
    (∀ (doc : SearchDoc) (p u b n : String),
      resolution_from_title doc = none →
        row_scan (normalize_pcode p) doc.resultRows = some (b, n) →
        extract_search_resolution p doc u = some (.partsRef b n (build_parts_url b n))) ∧
    (∀ (doc : SearchDoc) (p u : String),
      resolution_from_title doc = none →
        row_scan (normalize_pcode p) doc.resultRows = none →
        extract_search_resolution p doc u = resolution_from_list doc u) ∧
    (∀ (wanted : String) (rows : List ResultRow) (b n : String),
      row_scan wanted rows = some (b, n) →
        ∃ tr ∈ rows,
          (tr.pcodeText = none ∨ normalize_pcode (tr.pcodeText.getD "") = wanted) ∧
          ∃ img, tr.img = some img ∧ img.dataBrand ≠ "" ∧ img.dataNumber ≠ "" ∧
            b = pyStrip img.dataBrand ∧ n = pyStrip img.dataNumber ∧ b ≠ "" ∧ n ≠ "") := by
  refine ⟨?_, ?_, ?_, ?_⟩
  · intro doc p u b n ht
    unfold extract_search_resolution
    rw [ht]
  · intro doc p u b n ht hr
    unfold extract_search_resolution
    rw [ht, hr]
  · intro doc p u ht hr
    unfold extract_search_resolution
    rw [ht, hr]
  · intro wanted rows b n h
    exact row_scan_sound h

/-- C3 witness: the priority conjuncts applied at concrete documents. -/
theorem classification_order_and_row_condition_witness :
    extract_search_resolution "31311" ⟨some ⟨"3RG", "31311"⟩, "", "", [], none⟩ "u" =
      some (.partsRef "3RG" "31311" (build_parts_url "3RG" "31311")) ∧
    extract_search_resolution "XYZ" docRowNoPcode "u" =
      some (.partsRef "B" "N" (build_parts_url "B" "N")) :=
  ⟨classification_order_and_row_condition.1 _ "31311" "u" "3RG" "31311" rfl,
   classification_order_and_row_condition.2.1 docRowNoPcode "XYZ" "u" "B" "N" rfl rfl⟩

/-- C4: the variant list is the stripped-trim characterization — the
code as given (trimmed) first, then the separator-stripped form only
when non-empty and different — so it never has more than two entries,
and a resolution run never performs more than two search navigations. -/
theorem variant_list_and_attempt_bound (p : String) (env : Upstream) :
    (variants_for_search p =
      if pyStrip p = "" then []
      else
        if (⟨(pyStrip p).data.filter Char.isAlphanum⟩ : String) ≠ "" ∧
            (⟨(pyStrip p).data.filter Char.isAlphanum⟩ : String) ≠ pyStrip p then
          [pyStrip p, ⟨(pyStrip p).data.filter Char.isAlphanum⟩]
        else [pyStrip p]) ∧
    (variants_for_search p).length ≤ 2 ∧
    (resolve_parts_ref_by_pcode env p).2.countP Nav.isSearch ≤ 2 :=
  ⟨variants_for_search_eq p, variants_for_search_length p,
    le_trans (resolve_loop_search_count env p none (variants_for_search p))
      (variants_for_search_length p)⟩

/-- C5: every successfully resolved reference's detail URL is the
deterministic `_build_parts_url` of its brand and number, and hence two
successful resolutions — e.g. one via the DirectHit path and one via the
ListHit→detail path — that agree on brand and number yield the same
`AutorusPartRef`. -/
theorem parts_url_derived_and_paths_agree :
    (∀ (env : Upstream) (p : String) (r : AutorusPartRef),
      (resolve_parts_ref_by_pcode env p).1 = .ok r →
        r.parts_url = build_parts_url r.brand r.number) ∧
    (∀ (env env2 : Upstream) (p p2 : String) (r r2 : AutorusPartRef),
      (resolve_parts_ref_by_pcode env p).1 = .ok r →
      (resolve_parts_ref_by_pcode env2 p2).1 = .ok r2 →
      r.brand = r2.brand → r.number = r2.number → r = r2) := by
  constructor
  · intro env p r h
    exact (resolve_ok_sound h).2.2
  · intro env env2 p p2 r r2 h h2 hb hn
    have e1 := (resolve_ok_sound h).2.2
    have e2 := (resolve_ok_sound h2).2.2
    cases r; cases r2
    simp_all

/-- C5 witness: the DirectHit environment and the ListHit environment
resolve `31311` to the same reference, and the ListHit path performs
exactly two navigations. -/
theorem parts_url_derived_and_paths_agree_witness :
    (AutorusPartRef.mk "3RG" "31311" (build_parts_url "3RG" "31311")) =
      (AutorusPartRef.mk "3RG" "31311" "https://b2b.autorus.ru/parts/3RG/31311") ∧
    (resolve_parts_ref_by_pcode envListHit "31311").2 =
      [.search (search_url_for "31311"),
        .detail "https://b2b.autorus.ru/search/3RG/31311"] :=
  ⟨parts_url_derived_and_paths_agree.2 envDirect envListHit "31311" "31311"
      ⟨"3RG", "31311", build_parts_url "3RG" "31311"⟩
      ⟨"3RG", "31311", "https://b2b.autorus.ru/parts/3RG/31311"⟩
      rfl rfl rfl rfl,
    rfl⟩

/-- C6: on a parts page that is neither guest-mode nor timed out, the
fetched offer is exactly the first availability block in document order
(mapped through the block-to-offer extraction), and the absence of any
block yields a `none` offer in a successful — not raised — result. -/
theorem first_offer_block_or_null (env : Upstream) (url : String)
    (hg : (env.partsPage url).guest = false)
    (ht : (env.partsPage url).timedOut = false) :
    fetch_first_offer_from_parts env url =
      (.ok (optText (env.partsPage url).articleBrand,
            optText (env.partsPage url).articleNumber,
            ((env.partsPage url).blocks.head?).map offer_of_block),
        [.parts url]) := by
  unfold fetch_first_offer_from_parts
  dsimp only
  rw [hg, ht]
  simp only [Bool.false_eq_true, if_false]
  cases hb : (env.partsPage url).blocks with
  | nil => simp [hb]
  | cons b rest => simp [hb]

/-- C6 witness: with zero blocks the offer is `none` without an error;
with two blocks the offer is the first one in document order, not the
cheaper, better-stocked second one. -/
theorem first_offer_block_or_null_witness :
    fetch_first_offer_from_parts envPartsEmpty "u" =
      (.ok (some "3RG", some "31311", none), [.parts "u"]) ∧
    fetch_first_offer_from_parts envPartsTwo "u" =
      (.ok (some "3RG", some "31311",
        some ⟨"WH1", parse_int "2 шт", parse_price "200", "завтра"⟩), [.parts "u"]) :=
  ⟨first_offer_block_or_null envPartsEmpty "u" rfl rfl,
   first_offer_block_or_null envPartsTwo "u" rfl rfl⟩

/-- C7: `_parse_price` yields `0` on the empty string, yields `0` for
any input without a digit (including unparseable all-separator inputs),
and parses the comma-decimal string `"1 234,50 ₽"` to `1234.5`; it is a
total function, so it never raises. -/
theorem parse_price_behaviour :
    parse_price "" = 0 ∧
    (∀ s : String, (∀ c ∈ s.data, c.isDigit = false) → parse_price s = 0) ∧
    parse_price "1 234,50 ₽" = 2469 / 2 := by
  refine ⟨rfl, fun s h => parse_price_no_digits h, ?_⟩
  rw [show parse_price "1 234,50 ₽" =
    (((1234 : ℕ) : ℚ) + ((50 : ℕ) : ℚ) / (10 ^ 2 : ℚ)) from rfl]
  norm_num

/-- C7 witness: the no-digit clause applied to a currency-only string. -/
theorem parse_price_behaviour_witness : parse_price "₽ шт." = 0 :=
  parse_price_behaviour.2.1 "₽ шт." (by decide)

/-- C8: `_normalize_pcode` — uppercase then strip non-alphanumerics —
is idempotent. -/
theorem normalize_pcode_idempotent (x : String) :
    normalize_pcode (normalize_pcode x) = normalize_pcode x := by
  unfold normalize_pcode
  apply congrArg String.mk
  have hmap : ((x.data.map Char.toUpper).filter Char.isAlphanum).map Char.toUpper =
      (x.data.map Char.toUpper).filter Char.isAlphanum := by
    apply map_eq_self_of
    intro c hc
    have hc2 := List.mem_of_mem_filter hc
    obtain ⟨d, _, rfl⟩ := List.mem_map.mp hc2
    exact char_toUpper_idem d
  rw [hmap, List.filter_filter]
  apply List.filter_congr
  intro c _
  simp [Bool.and_self]

/-- C9: every `AutorusPartRef` produced by a successful resolution has
a non-empty brand and a non-empty number, whichever of the three hit
paths produced it. -/
theorem resolved_reference_nonempty (env : Upstream) (p : String) (r : AutorusPartRef)
    (h : (resolve_parts_ref_by_pcode env p).1 = .ok r) :
    r.brand ≠ "" ∧ r.number ≠ "" :=
  ⟨(resolve_ok_sound h).1, (resolve_ok_sound h).2.1⟩

/-- C9 witness: the direct-hit environment resolves to a reference with
non-empty brand and number. -/
theorem resolved_reference_nonempty_witness :
    ∃ r : AutorusPartRef, (resolve_parts_ref_by_pcode envDirect "31311").1 = .ok r ∧
      r.brand ≠ "" ∧ r.number ≠ "" :=
  ⟨⟨"3RG", "31311", build_parts_url "3RG" "31311"⟩, rfl,
    resolved_reference_nonempty envDirect "31311"
      ⟨"3RG", "31311", build_parts_url "3RG" "31311"⟩ rfl⟩

/-- C10: a part code that is empty or whitespace-only yields an empty
variant list, so resolution performs no navigation at all and fails
with the resolution-failed error wrapping no underlying error. -/
theorem blank_code_resolution_failure (env : Upstream) (p : String)
    (h : pyStrip p = "") :
    variants_for_search p = [] ∧
    resolve_parts_ref_by_pcode env p = (.error (.resolutionFailed p none), []) := by
  refine ⟨variants_for_search_blank h, ?_⟩
  unfold resolve_parts_ref_by_pcode
  rw [variants_for_search_blank h]
  rfl

/-- C10 witness: the whitespace-only code `"   "`. -/
theorem blank_code_resolution_failure_witness :
    variants_for_search "   " = [] ∧
    resolve_parts_ref_by_pcode envDirect "   " =
      (.error (.resolutionFailed "   " none), []) :=
  blank_code_resolution_failure envDirect "   " (by decide)

end Autorus
